import Mathlib

/-!
# Verification of the conteo-objetos detection-ingestion service

Shallow embedding of the repository's backend: the Express standalone server
(`src/backend/server.js`) and the Netlify function-per-request adapter
(`src/unnamed/part_000`).  Both files implement the same five operations
(health, ingest, history, stats, purge) over a PostgreSQL `detections` table.

Modelling conventions:
* JavaScript numbers are modelled as exact rationals (`ℚ`).  The only numeric
  operations the code performs on scores are additions, one division, one
  multiplication by 100 and `toFixed(2)`; on the inputs exercised by the spec
  these agree with exact rational arithmetic, and `toFixed(2)` on non-negative
  values is round-half-up to two decimals.
* The SQL store is modelled as an explicit state: the list of rows in insertion
  order together with the next `SERIAL` id and the database clock
  (`CURRENT_TIMESTAMP`, a natural number set by the environment; handlers never
  advance it themselves).
* The SQL aggregate/order-by/limit clauses are modelled by their documented
  PostgreSQL semantics (`NULL` aggregates on an empty table, `ORDER BY ... DESC`,
  `LIMIT` with a non-negative argument, error on a negative one, and the text
  parameter `$1` cast to an integer).
* The parsed JSON body's `objects` field is modelled by `JsVal`.  Arrays carry
  well-formed detection records (a `class` string and a `score` number), which
  is the only array shape the claims exercise; every non-array value that
  reaches `objects.map` makes it throw `TypeError: objects.map is not a
  function`, which the surrounding `catch` turns into the 500 response.
-/

/-- A detected object as submitted in an ingest batch: a `class` label and a
confidence `score` (server.js lines 78-107 only ever read these two fields). -/
structure DetectedObject where
  «class» : String
  score : ℚ
deriving DecidableEq, Repr

/-- A JavaScript value occupying the `objects` field of a parsed request body.
`undefined` stands for an absent field.  Arrays carry parsed detection
records (see module docstring); objects carry their fields. -/
inductive JsVal where
  | undefined : JsVal
  | null : JsVal
  | bool (b : Bool) : JsVal
  | num (q : ℚ) : JsVal
  | str (s : String) : JsVal
  | arr (elems : List DetectedObject) : JsVal
  | obj (fields : List (String × JsVal)) : JsVal

/-- JavaScript truthiness of a value (`!v` in the source is `!jsTruthy v`). -/
def jsTruthy : JsVal → Bool
  | .undefined => false
  | .null => false
  | .bool b => b
  | .num q => decide (q ≠ 0)
  | .str s => decide (s ≠ "")
  | .arr _ => true
  | .obj _ => true

/-- The value of `v.length`: array and string lengths are numbers, objects may
carry an explicit `length` property, anything else gives `undefined`. -/
def lengthProp : JsVal → JsVal
  | .arr xs => .num xs.length
  | .str s => .num s.length
  | .obj fields => (fields.lookup "length").getD .undefined
  | _ => .undefined

/-- Strict equality `v === 0`: only the number `0` compares equal to `0`. -/
def strictEqNumZero : JsVal → Bool
  | .num q => decide (q = 0)
  | _ => false

/-- Returns `true` exactly for array values (which are what `objects.map` accepts). -/
def isJsArray : JsVal → Bool
  | .arr _ => true
  | _ => false

/-! ## Aggregator

Embeds server.js lines 78-92 / part_000 lines 91-103: counts, distinct classes,
average confidence and the `"<class> (<count>)"` summary string. -/

/-- One step of JavaScript `Set` / object-key accumulation: keep the first
occurrence of a name, ignore repeats. -/
def firstSeenStep (acc : List String) (n : String) : List String :=
  if n ∈ acc then acc else acc ++ [n]

/-- The distinct names of a list in order of first appearance — the iteration
order of `new Set(names)` and of the string keys of a JS object filled by
`names.forEach(name => { counts[name] = (counts[name] || 0) + 1 })`. -/
def firstSeen (names : List String) : List String :=
  names.foldl firstSeenStep []

/-- One update `counts[name] = (counts[name] || 0) + 1` on an association list: bump the
existing entry (keeping its position) or append a fresh one. -/
def insertCount : List (String × ℕ) → String → List (String × ℕ)
  | [], name => [(name, 1)]
  | (k, c) :: rest, name =>
    if k = name then (k, c + 1) :: rest else (k, c) :: insertCount rest name

/-- The `objectCounts` object of the source (part_000 lines 96-99): class names
with their multiplicities, keys in insertion order. -/
def objectCounts (names : List String) : List (String × ℕ) :=
  names.foldl insertCount []

/-- The numeric value of a digit character, `none` for non-digits. -/
def digitVal? (c : Char) : Option ℕ :=
  if '0' ≤ c ∧ c ≤ '9' then some (c.toNat - '0'.toNat) else none

/-- Decimal value of a digit string (non-digits contribute 0; only applied to
all-digit strings). -/
def digitsToNat (cs : List Char) : ℕ :=
  cs.foldl (fun a c => 10 * a + (digitVal? c).getD 0) 0

/-- Whether a string is an ECMAScript *array index* property key: the canonical
decimal numeral of an integer `0 ≤ i < 2^32 - 1`.  Such keys are enumerated
first, in ascending numeric order, by `Object.entries`. -/
def isArrayIndexKey (s : String) : Bool :=
  match s.toList with
  | [] => false
  | c :: cs =>
    ((c :: cs).all fun ch => (digitVal? ch).isSome) &&
      (c != '0' || cs.isEmpty) && decide (digitsToNat (c :: cs) < 4294967295)

/-- The numeric value of an array-index key (0 on non-index strings). -/
def arrayIndexVal (s : String) : ℕ :=
  digitsToNat s.toList

/-- Enumeration order of `Object.entries` over a string-keyed object
(ECMAScript `OrdinaryOwnPropertyKeys`): array-index keys first in ascending
numeric order, then the remaining string keys in insertion order. -/
def jsEntries (m : List (String × ℕ)) : List (String × ℕ) :=
  List.insertionSort (fun p q => arrayIndexVal p.1 ≤ arrayIndexVal q.1)
      (m.filter fun p => isArrayIndexKey p.1) ++
    m.filter fun p => !isArrayIndexKey p.1

/-- The `detectedObjectsText` summary (part_000 lines 101-103):
`Object.entries(objectCounts).map(([name, count]) => `name (count)`).join(', ')`. -/
def detectedObjectsString (names : List String) : String :=
  String.intercalate ", "
    ((jsEntries (objectCounts names)).map fun p =>
      p.1 ++ " (" ++ toString p.2 ++ ")")

/-- JavaScript `x.toFixed(2)` on the non-negative averages the code produces,
as a rational: round half-up to two decimal places (the result is then stored
in the `DECIMAL(5,2)` column). -/
def toFixed2 (q : ℚ) : ℚ :=
  (((q * 100 + 1 / 2).floor : ℤ) : ℚ) / 100

/-! ## Store model -/

/-- One row of the `detections` table. -/
structure DetectionRow where
  id : ℕ
  timestamp : ℕ
  source : String
  total_objects : ℕ
  unique_objects : ℕ
  avg_confidence : ℚ
  detected_objects : String
  objects_data : List DetectedObject
  created_at : ℕ
deriving DecidableEq, Repr

/-- The state of the store: rows in insertion order, the next `SERIAL` id, and
the database clock (`CURRENT_TIMESTAMP`) as seen by the current request. -/
structure StoreState where
  rows : List DetectionRow
  nextId : ℕ
  now : ℕ
deriving DecidableEq, Repr

/-- A fresh store: no rows, `SERIAL` starts at 1. -/
def initialState : StoreState := ⟨[], 1, 0⟩

/-- The result of `SELECT COUNT(*), SUM(total_objects), AVG(avg_confidence),
MAX(total_objects) FROM detections` (part_000 lines 184-191). -/
structure DetectionStats where
  total_detections : ℕ
  total_objects_detected : Option ℕ
  overall_avg_confidence : Option ℚ
  max_objects_in_detection : Option ℕ
deriving DecidableEq, Repr

/-- PostgreSQL aggregate semantics over the stored rows: `COUNT` of rows, and
`SUM`/`AVG`/`MAX` which are `NULL` when no rows exist. -/
def aggregateStats : List DetectionRow → DetectionStats
  | [] => ⟨0, none, none, none⟩
  | r :: rest =>
    ⟨(r :: rest).length,
     some (((r :: rest).map fun x => x.total_objects).sum),
     some ((((r :: rest).map fun x => x.avg_confidence).sum) / ((r :: rest).length : ℚ)),
     some (((r :: rest).map fun x => x.total_objects).foldr max 0)⟩

/-- Models `ORDER BY created_at DESC`: rows sorted by descending creation time. -/
def sortByCreatedAtDesc (rows : List DetectionRow) : List DetectionRow :=
  List.insertionSort (fun a b => b.created_at ≤ a.created_at) rows

/-! ## Responses -/

/-- The JSON payloads the two backends produce. -/
inductive ResponseBody where
  | empty : ResponseBody
  | errorMsg (error : String) : ResponseBody
  | errorDetails (error details : String) : ResponseBody
  | postSuccess (message : String) (data : DetectionRow) : ResponseBody
  | getSuccess (count : ℕ) (data : List DetectionRow) : ResponseBody
  | statsSuccess (stats : DetectionStats) : ResponseBody
  | deleteSuccess (message : String) : ResponseBody
  | healthOk (timestamp : ℕ) : ResponseBody
deriving DecidableEq, Repr

/-- The CORS headers attached to every response (part_000 lines 37-42). -/
def corsHeaders : List (String × String) :=
  [("Access-Control-Allow-Origin", "*"),
   ("Access-Control-Allow-Headers", "Content-Type"),
   ("Access-Control-Allow-Methods", "GET, POST, PUT, DELETE, OPTIONS"),
   ("Content-Type", "application/json")]

/-- An HTTP response: status code, headers and JSON body. -/
structure ApiResponse where
  statusCode : ℕ
  headers : List (String × String)
  body : ResponseBody
deriving DecidableEq, Repr

/-- A response carrying the standard headers. -/
def mkResp (code : ℕ) (b : ResponseBody) : ApiResponse :=
  ⟨code, corsHeaders, b⟩

/-! ## Request handlers (part_000, the Netlify adapter) -/

/-- The CORS preflight response (part_000 lines 45-51). -/
def handleOptions : ApiResponse :=
  ⟨200, corsHeaders, .empty⟩

/-- Handler for `GET /api/health` (part_000 lines 54-76); the store round-trip `SELECT
NOW()` succeeds in this model, returning the clock. -/
def handleHealth (st : StoreState) : ApiResponse × StoreState :=
  (mkResp 200 (.healthOk st.now), st)

/-- The aggregation-and-insert tail of `handlePostDetections` (part_000 lines
91-130), reached only with an actual array that passed the emptiness check. -/
def postInsert (source : Option String) (objs : List DetectedObject)
    (st : StoreState) : ApiResponse × StoreState :=
  let totalObjects := objs.length
  let uniqueObjects := (firstSeen (objs.map fun o => o.«class»)).length
  let avgConfidence := objs.foldl (fun s o => s + o.score) 0 / (totalObjects : ℚ) * 100
  let detectedObjectsText := detectedObjectsString (objs.map fun o => o.«class»)
  let row : DetectionRow :=
    { id := st.nextId
      timestamp := st.now
      source := source.getD "camera"
      total_objects := totalObjects
      unique_objects := uniqueObjects
      avg_confidence := toFixed2 avgConfidence
      detected_objects := detectedObjectsText
      objects_data := objs
      created_at := st.now }
  (mkResp 200 (.postSuccess "Detección guardada exitosamente" row),
   { st with rows := st.rows ++ [row], nextId := st.nextId + 1 })

/-- Handler for `POST /api/detections` (part_000 lines 79-143).  The guard is the source's
`if (!objects || objects.length === 0)`; a truthy non-array that slips past it
makes `objects.map` throw, which the `catch` converts into the 500 response. -/
def handlePostDetections (source : Option String) (objects : JsVal)
    (st : StoreState) : ApiResponse × StoreState :=
  if !jsTruthy objects || strictEqNumZero (lengthProp objects) then
    (mkResp 400 (.errorMsg "No hay objetos para guardar"), st)
  else
    match objects with
    | .arr objs => postInsert source objs st
    | _ =>
      (mkResp 500 (.errorDetails "Error guardando en base de datos"
        "objects.map is not a function"), st)

/-- Parse of a non-empty all-digit (optionally `-`-signed) string as the
PostgreSQL integer cast of the `LIMIT $1` text parameter. -/
def parseNatDigits (cs : List Char) : Option ℕ :=
  if cs.isEmpty then none
  else
    cs.foldl
      (fun acc c =>
        match acc, digitVal? c with
        | some a, some d => some (10 * a + d)
        | _, _ => none)
      (some 0)

/-- PostgreSQL's cast of the limit parameter to an integer. -/
def pgParseInt (s : String) : Option ℤ :=
  match s.toList with
  | '-' :: cs => (parseNatDigits cs).map fun n => -(n : ℤ)
  | cs => (parseNatDigits cs).map fun n => (n : ℤ)

/-- The source's `const limit = query.limit || 50` followed by the store's handling of
`LIMIT $1`: an absent or empty (falsy) parameter defaults to 50; anything else
is passed through — the store then errors on malformed or negative values. -/
def effectiveLimit (limitParam : Option String) : Except String ℤ :=
  match limitParam with
  | none => Except.ok 50
  | some s =>
    if s = "" then Except.ok 50
    else
      match pgParseInt s with
      | none => Except.error "invalid input syntax for type bigint"
      | some n => if n < 0 then Except.error "LIMIT must not be negative" else Except.ok n

/-- Handler for `GET /api/detections` (part_000 lines 146-179): `ORDER BY created_at DESC
LIMIT $1`, answering with the rows and their count. -/
def handleGetDetections (limitParam : Option String) (st : StoreState) :
    ApiResponse × StoreState :=
  match effectiveLimit limitParam with
  | .error msg => (mkResp 500 (.errorDetails "Error obteniendo datos" msg), st)
  | .ok n =>
    let data := (sortByCreatedAtDesc st.rows).take n.toNat
    (mkResp 200 (.getSuccess data.length data), st)

/-- Handler for `GET /api/stats` (part_000 lines 182-212). -/
def handleStats (st : StoreState) : ApiResponse × StoreState :=
  (mkResp 200 (.statsSuccess (aggregateStats st.rows)), st)

/-- Handler for `DELETE /api/detections` (part_000 lines 215-238): `DELETE FROM detections`
removes every row (the `SERIAL` sequence keeps its position). -/
def handleDeleteDetections (st : StoreState) : ApiResponse × StoreState :=
  (mkResp 200 (.deleteSuccess "Todas las detecciones han sido eliminadas"),
   { st with rows := [] })

/-- A Netlify invocation event, with the body already JSON-parsed into its
`source` and `objects` fields (a body without an `objects` member parses to
`JsVal.undefined`). -/
structure NetlifyEvent where
  httpMethod : String
  path : String
  queryLimit : Option String
  bodySource : Option String
  bodyObjects : JsVal

/-- The adapter entry point `exports.handler` (part_000 lines 241-280): OPTIONS preflight first, then
the five routes, else the 404 response. -/
def handler (ev : NetlifyEvent) (st : StoreState) : ApiResponse × StoreState :=
  if ev.httpMethod = "OPTIONS" then (handleOptions, st)
  else if ev.path = "/.netlify/functions/api/health" ∧ ev.httpMethod = "GET" then
    handleHealth st
  else if ev.path = "/.netlify/functions/api/detections" ∧ ev.httpMethod = "POST" then
    handlePostDetections ev.bodySource ev.bodyObjects st
  else if ev.path = "/.netlify/functions/api/detections" ∧ ev.httpMethod = "GET" then
    handleGetDetections ev.queryLimit st
  else if ev.path = "/.netlify/functions/api/stats" ∧ ev.httpMethod = "GET" then
    handleStats st
  else if ev.path = "/.netlify/functions/api/detections" ∧ ev.httpMethod = "DELETE" then
    handleDeleteDetections st
  else (mkResp 404 (.errorMsg "Ruta no encontrada"), st)

/-! ## The standalone Express server (src/backend/server.js)

Separate transcriptions of the five route handlers of server.js, which
duplicate the per-request logic of the Netlify adapter, and of the two
`CREATE TABLE` statements, which do **not** agree: the server's table
(server.js lines 23-34) has no `detected_objects` column, while the adapter's
(part_000 lines 13-25) does — even though both `INSERT` statements write it. -/

/-- Columns of the `CREATE TABLE IF NOT EXISTS detections` statement of
server.js `initDatabase` (lines 22-42). -/
def serverSchemaColumns : List (String × String) :=
  [("id", "SERIAL PRIMARY KEY"),
   ("timestamp", "TIMESTAMP DEFAULT CURRENT_TIMESTAMP"),
   ("source", "VARCHAR(50)"),
   ("total_objects", "INTEGER"),
   ("unique_objects", "INTEGER"),
   ("avg_confidence", "DECIMAL(5,2)"),
   ("objects_data", "JSONB"),
   ("created_at", "TIMESTAMP DEFAULT CURRENT_TIMESTAMP")]

/-- Columns of the `CREATE TABLE IF NOT EXISTS detections` statement of
part_000 `initDatabase` (lines 12-32). -/
def netlifySchemaColumns : List (String × String) :=
  [("id", "SERIAL PRIMARY KEY"),
   ("timestamp", "TIMESTAMP DEFAULT CURRENT_TIMESTAMP"),
   ("source", "VARCHAR(50)"),
   ("total_objects", "INTEGER"),
   ("unique_objects", "INTEGER"),
   ("avg_confidence", "DECIMAL(5,2)"),
   ("detected_objects", "VARCHAR(500)"),
   ("objects_data", "JSONB"),
   ("created_at", "TIMESTAMP DEFAULT CURRENT_TIMESTAMP")]

/-- The aggregation-and-insert tail of server.js `app.post('/api/detections')`
(lines 78-115), transcribed independently of `postInsert`. -/
def serverPostInsert (source : Option String) (objs : List DetectedObject)
    (st : StoreState) : ApiResponse × StoreState :=
  let totalObjects := objs.length
  let uniqueObjects := (firstSeen (objs.map fun o => o.«class»)).length
  let avgConfidence := objs.foldl (fun s o => s + o.score) 0 / (totalObjects : ℚ) * 100
  let detectedObjectsText := detectedObjectsString (objs.map fun o => o.«class»)
  let row : DetectionRow :=
    { id := st.nextId
      timestamp := st.now
      source := source.getD "camera"
      total_objects := totalObjects
      unique_objects := uniqueObjects
      avg_confidence := toFixed2 avgConfidence
      detected_objects := detectedObjectsText
      objects_data := objs
      created_at := st.now }
  (mkResp 200 (.postSuccess "Detección guardada exitosamente" row),
   { st with rows := st.rows ++ [row], nextId := st.nextId + 1 })

/-- server.js `app.post('/api/detections')` (lines 68-124). -/
def serverPostDetections (source : Option String) (objects : JsVal)
    (st : StoreState) : ApiResponse × StoreState :=
  if !jsTruthy objects || strictEqNumZero (lengthProp objects) then
    (mkResp 400 (.errorMsg "No hay objetos para guardar"), st)
  else
    match objects with
    | .arr objs => serverPostInsert source objs st
    | _ =>
      (mkResp 500 (.errorDetails "Error guardando en base de datos"
        "objects.map is not a function"), st)

/-- server.js `const limit = req.query.limit || 50` (line 130) plus the
store's handling of `LIMIT $1`. -/
def serverEffectiveLimit (limitParam : Option String) : Except String ℤ :=
  match limitParam with
  | none => Except.ok 50
  | some s =>
    if s = "" then Except.ok 50
    else
      match pgParseInt s with
      | none => Except.error "invalid input syntax for type bigint"
      | some n => if n < 0 then Except.error "LIMIT must not be negative" else Except.ok n

/-- server.js `app.get('/api/detections')` (lines 128-155). -/
def serverGetDetections (limitParam : Option String) (st : StoreState) :
    ApiResponse × StoreState :=
  match serverEffectiveLimit limitParam with
  | .error msg => (mkResp 500 (.errorDetails "Error obteniendo datos" msg), st)
  | .ok n =>
    let data := (sortByCreatedAtDesc st.rows).take n.toNat
    (mkResp 200 (.getSuccess data.length data), st)

/-- server.js `app.get('/api/stats')` (lines 158-183). -/
def serverStats (st : StoreState) : ApiResponse × StoreState :=
  (mkResp 200 (.statsSuccess (aggregateStats st.rows)), st)

/-- server.js `app.delete('/api/detections')` (lines 186-202). -/
def serverDeleteDetections (st : StoreState) : ApiResponse × StoreState :=
  (mkResp 200 (.deleteSuccess "Todas las detecciones han sido eliminadas"),
   { st with rows := [] })

/-- server.js `app.get('/api/health')` (lines 50-64). -/
def serverHealth (st : StoreState) : ApiResponse × StoreState :=
  (mkResp 200 (.healthOk st.now), st)

/-! ## Spec-side definitions

These follow the specification's words, to be compared with the definitions
transcribed from the source. -/

/-- The summary string exactly as §4.1 of the spec describes it: one
`"<class> (<count>)"` pair per distinct class, joined by `", "`, classes in
first-appearance order within the input sequence. -/
def specDetectedObjects (names : List String) : String :=
  String.intercalate ", "
    ((firstSeen names).map fun n => n ++ " (" ++ toString (names.count n) ++ ")")

/-- Claim C5 as stated: the two entry points implement the same logic —
equal responses and store effects on each of the five operations — and create
the same table schema at initialization. -/
def C5_claim : Prop :=
  serverPostDetections = handlePostDetections ∧
  serverGetDetections = handleGetDetections ∧
  serverStats = handleStats ∧
  serverDeleteDetections = handleDeleteDetections ∧
  serverHealth = handleHealth ∧
  serverSchemaColumns = netlifySchemaColumns

/-- Claim C6 as stated: the history operation defaults the limit to 50, and a
supplied value that is non-positive or absurdly large (beyond 1000000) is
rejected or clamped — i.e. never used verbatim as the store's limit. -/
def C6_claim : Prop :=
  effectiveLimit none = Except.ok 50 ∧
  ∀ (s : String) (n : ℤ), pgParseInt s = some n → (n ≤ 0 ∨ 1000000 < n) →
    effectiveLimit (some s) ≠ Except.ok n

/-- Claim C10 as stated: every ingest whose `objects` field is truthy but not
an array passes the validation check, makes the aggregation throw, and yields
the 500 storage-error response with the store unchanged. -/
def C10_claim : Prop :=
  ∀ (src : Option String) (v : JsVal) (st : StoreState),
    jsTruthy v = true → isJsArray v = false →
      (handlePostDetections src v st).1.statusCode = 500 ∧
      (handlePostDetections src v st).2 = st

/-! ## Concrete scenarios used by witnesses and counterexamples -/

/-- The spec's example batch: classes `person, car, person` with scores
`0.5, 0.9, 1.0`. -/
def demoBatch : List DetectedObject :=
  [⟨"person", 1/2⟩, ⟨"car", 9/10⟩, ⟨"person", 1⟩]

/-- A batch whose second class label, `"0"`, is a canonical array-index
string. -/
def idxBatch : List DetectedObject :=
  [⟨"person", 1/2⟩, ⟨"0", 1/2⟩]

/-- A three-object batch and a five-object batch, for the stats scenario. -/
def statsBatchA : List DetectedObject :=
  [⟨"person", 1/2⟩, ⟨"car", 1/2⟩, ⟨"dog", 1/2⟩]

/-- See `statsBatchA`. -/
def statsBatchB : List DetectedObject :=
  [⟨"person", 1⟩, ⟨"person", 1⟩, ⟨"car", 1⟩, ⟨"cat", 1⟩, ⟨"dog", 1⟩]

/-- The store after ingesting `statsBatchA` at time 10 and `statsBatchB` at
time 20. -/
def statsDemoState : StoreState :=
  let s1 := (handlePostDetections (some "camera") (.arr statsBatchA) ⟨[], 1, 10⟩).2
  (handlePostDetections (some "video") (.arr statsBatchB) ⟨s1.rows, s1.nextId, 20⟩).2

/-- The store after ingesting three one-object batches at times 10, 20, 30. -/
def histState : StoreState :=
  let s1 := (handlePostDetections (some "camera") (.arr [⟨"person", 1/2⟩]) ⟨[], 1, 10⟩).2
  let s2 := (handlePostDetections (some "camera") (.arr [⟨"car", 3/4⟩]) ⟨s1.rows, s1.nextId, 20⟩).2
  (handlePostDetections (some "camera") (.arr [⟨"dog", 1⟩]) ⟨s2.rows, s2.nextId, 30⟩).2

/-! ## Helper lemmas -/

/-- The executable `Rat.floor` is the floor of the `FloorRing` instance. -/
lemma ratFloor_eq_floor (q : ℚ) : q.floor = ⌊q⌋ :=
  (Rat.floor_def' q).trans Rat.floor_def.symm

/-- Rewrites `toFixed(2)` in terms of Mathlib's standard rounding. -/
lemma toFixed2_eq_round (q : ℚ) : toFixed2 q = ((round (q * 100) : ℤ) : ℚ) / 100 := by
  rw [toFixed2, ratFloor_eq_floor, round_eq]

/-- The source's `objects.reduce((sum, obj) => sum + obj.score, 0)` is the sum
of the scores. -/
lemma foldl_add_score (l : List DetectedObject) :
    ∀ a : ℚ, l.foldl (fun s o => s + o.score) a = a + (l.map fun o => o.score).sum := by
  induction l with
  | nil => simp
  | cons o l ih =>
    intro a
    rw [List.foldl_cons, ih, List.map_cons, List.sum_cons, add_assoc]

lemma mem_foldl_firstSeenStep (l : List String) :
    ∀ (acc : List String) (y : String),
      y ∈ l.foldl firstSeenStep acc ↔ y ∈ acc ∨ y ∈ l := by
  induction l with
  | nil => simp
  | cons a l ih =>
    intro acc y
    rw [List.foldl_cons, ih]
    by_cases h : a ∈ acc
    · rw [firstSeenStep, if_pos h]
      constructor
      · rintro (hy | hy)
        · exact Or.inl hy
        · simp [hy]
      · rintro (hy | hy)
        · exact Or.inl hy
        · rcases List.mem_cons.1 hy with rfl | hy
          · exact Or.inl h
          · exact Or.inr hy
    · rw [firstSeenStep, if_neg h]
      simp [List.mem_append, or_assoc]

lemma nodup_foldl_firstSeenStep (l : List String) :
    ∀ acc : List String, acc.Nodup → (l.foldl firstSeenStep acc).Nodup := by
  induction l with
  | nil => exact fun _ h => h
  | cons a l ih =>
    intro acc hacc
    rw [List.foldl_cons]
    apply ih
    by_cases h : a ∈ acc
    · rwa [firstSeenStep, if_pos h]
    · rw [firstSeenStep, if_neg h]
      simpa [List.nodup_append] using ⟨hacc, h⟩

/-- The first-seen list has the same members as the input. -/
lemma mem_firstSeen (names : List String) (y : String) :
    y ∈ firstSeen names ↔ y ∈ names := by
  rw [firstSeen, mem_foldl_firstSeenStep]
  simp

lemma nodup_firstSeen (names : List String) : (firstSeen names).Nodup :=
  nodup_foldl_firstSeenStep names [] List.nodup_nil

lemma firstSeen_append_singleton (names : List String) (x : String) :
    firstSeen (names ++ [x]) =
      if x ∈ names then firstSeen names else firstSeen names ++ [x] := by
  rw [firstSeen, List.foldl_append, List.foldl_cons, List.foldl_nil]
  show firstSeenStep (firstSeen names) x = _
  rw [firstSeenStep]
  by_cases h : x ∈ names
  · rw [if_pos ((mem_firstSeen names x).2 h), if_pos h]
  · rw [if_neg (fun hc => h ((mem_firstSeen names x).1 hc)), if_neg h]

lemma insertCount_of_not_mem (m : List (String × ℕ)) (x : String)
    (h : x ∉ m.map Prod.fst) : insertCount m x = m ++ [(x, 1)] := by
  induction m with
  | nil => rfl
  | cons p m ih =>
    obtain ⟨k, c⟩ := p
    rw [List.map_cons, List.mem_cons, not_or] at h
    rw [insertCount, if_neg (fun hk => h.1 hk.symm), List.cons_append, ih h.2]

lemma insertCount_map_of_mem (L : List String) (f : String → ℕ) (x : String)
    (hx : x ∈ L) (hN : L.Nodup) :
    insertCount (L.map fun n => (n, f n)) x =
      L.map fun n => (n, if n = x then f n + 1 else f n) := by
  induction L with
  | nil => cases hx
  | cons a L ih =>
    rw [List.map_cons, List.map_cons, insertCount]
    by_cases hax : a = x
    · subst hax
      rw [if_pos rfl, if_pos rfl]
      congr 1
      apply List.map_congr_left
      intro n hn
      rw [if_neg (fun hnb : n = a => (List.nodup_cons.1 hN).1 (hnb ▸ hn))]
    · rw [if_neg hax, if_neg hax]
      congr 1
      exact ih ((List.mem_cons.1 hx).resolve_left fun hc => hax hc.symm)
        (List.nodup_cons.1 hN).2

/-- The characterisation of the source's `objectCounts` object: its keys are
the classes in first-appearance order, each mapped to its multiplicity. -/
lemma objectCounts_eq (names : List String) :
    objectCounts names = (firstSeen names).map fun n => (n, names.count n) := by
  induction names using List.reverseRecOn with
  | nil => rfl
  | append_singleton ns x ih =>
    have hstep : objectCounts (ns ++ [x]) = insertCount (objectCounts ns) x := by
      rw [objectCounts, List.foldl_append, List.foldl_cons, List.foldl_nil]
      rfl
    rw [hstep, ih, firstSeen_append_singleton]
    by_cases hx : x ∈ ns
    · rw [if_pos hx,
        insertCount_map_of_mem _ _ _ ((mem_firstSeen ns x).2 hx) (nodup_firstSeen ns)]
      apply List.map_congr_left
      intro n hn
      have hcnt : (ns ++ [x]).count n = ns.count n + if n = x then 1 else 0 := by
        rw [List.count_append]
        by_cases hnx : n = x
        · subst hnx
          simp
        · have h0 : List.count n [x] = 0 := List.count_eq_zero.2 (by simp [hnx])
          rw [h0, if_neg hnx]
      rw [hcnt]
      by_cases hnx : n = x <;> simp [hnx]
    · rw [if_neg hx, insertCount_of_not_mem, List.map_append]
      · congr 1
        · apply List.map_congr_left
          intro n hn
          have hnx : n ≠ x := fun hc => hx (hc ▸ (mem_firstSeen ns n).1 hn)
          have h0 : List.count n [x] = 0 := List.count_eq_zero.2 (by simp [hnx])
          rw [List.count_append, h0, add_zero]
        · have h0 : List.count x ns = 0 := List.count_eq_zero.2 hx
          have hcx : (ns ++ [x]).count x = 1 := by
            rw [List.count_append, h0]
            simp
          simp [hcx, h0]
      · simpa [List.map_map, Function.comp_def, mem_firstSeen] using hx

lemma jsEntries_eq_self (m : List (String × ℕ))
    (h : ∀ p ∈ m, isArrayIndexKey p.1 = false) : jsEntries m = m := by
  rw [jsEntries]
  have h1 : m.filter (fun p => isArrayIndexKey p.1) = [] :=
    List.filter_eq_nil_iff.2 fun p hp => by simp [h p hp]
  have h2 : m.filter (fun p => !isArrayIndexKey p.1) = m :=
    List.filter_eq_self.2 fun p hp => by simp [h p hp]
  rw [h1, h2]
  rfl

/-- When no class label is an array-index string, the code's summary string is
exactly the spec's first-appearance rendering. -/
lemma detectedObjectsString_eq_spec (names : List String)
    (h : ∀ n ∈ names, isArrayIndexKey n = false) :
    detectedObjectsString names = specDetectedObjects names := by
  have hkeys : ∀ p ∈ objectCounts names, isArrayIndexKey p.1 = false := by
    intro p hp
    rw [objectCounts_eq] at hp
    obtain ⟨n, hn, rfl⟩ := List.mem_map.1 hp
    exact h n ((mem_firstSeen names n).1 hn)
  rw [detectedObjectsString, jsEntries_eq_self _ hkeys, objectCounts_eq,
    List.map_map, specDetectedObjects]
  rfl

/-- The number of first-seen classes is the number of distinct classes. -/
lemma firstSeen_length_eq_dedup (names : List String) :
    (firstSeen names).length = names.dedup.length := by
  have h2 : (firstSeen names).toFinset = names.toFinset := by
    ext y
    simp [List.mem_toFinset, mem_firstSeen]
  calc (firstSeen names).length
      = (firstSeen names).dedup.length := by
        rw [List.dedup_eq_self.2 (nodup_firstSeen names)]
    _ = (firstSeen names).toFinset.card := (List.card_toFinset _).symm
    _ = names.toFinset.card := by rw [h2]
    _ = names.dedup.length := List.card_toFinset _

/-- The fold `foldr max 0` over a non-empty list of naturals is its maximum. -/
lemma foldr_max_spec (l : List ℕ) (h : l ≠ []) :
    l.foldr max 0 ∈ l ∧ ∀ x ∈ l, x ≤ l.foldr max 0 := by
  induction l with
  | nil => cases h rfl
  | cons a l ih =>
    by_cases hl : l = []
    · subst hl
      simp
    · obtain ⟨hmem, hle⟩ := ih hl
      refine ⟨?_, ?_⟩
      · rw [List.foldr_cons]
        rcases max_choice a (l.foldr max 0) with hc | hc
        · rw [hc]; exact List.mem_cons_self _ _
        · rw [hc]; exact List.mem_cons_of_mem _ hmem
      · intro x hx
        rcases List.mem_cons.1 hx with rfl | hx
        · exact le_max_left _ _
        · exact le_trans (hle x hx) (le_max_right _ _)

/-- A non-empty array passes the source's emptiness guard, so ingest proceeds
to the aggregation-and-insert tail. -/
lemma handlePost_arr (src : Option String) (objs : List DetectedObject)
    (st : StoreState) (h : objs ≠ []) :
    handlePostDetections src (.arr objs) st = postInsert src objs st := by
  have hlen : strictEqNumZero (lengthProp (.arr objs)) = false := by
    simp only [lengthProp, strictEqNumZero, decide_eq_false_iff_not, Nat.cast_eq_zero,
      List.length_eq_zero]
    exact h
  simp [handlePostDetections, jsTruthy, hlen]

instance : IsTotal DetectionRow fun a b => b.created_at ≤ a.created_at :=
  ⟨fun a b => le_total b.created_at a.created_at⟩

instance : IsTrans DetectionRow fun a b => b.created_at ≤ a.created_at :=
  ⟨fun _ _ _ h1 h2 => le_trans h2 h1⟩

/-- The `ORDER BY created_at DESC` output is sorted by descending creation time. -/
lemma sorted_sortByCreatedAtDesc (rows : List DetectionRow) :
    (sortByCreatedAtDesc rows).Sorted fun a b => b.created_at ≤ a.created_at :=
  List.sorted_insertionSort _ rows

/-- A non-empty, well-formed, non-negative limit string is used verbatim. -/
lemma effectiveLimit_passthrough (s : String) (n : ℤ) (hs : s ≠ "")
    (hp : pgParseInt s = some n) (h0 : 0 ≤ n) :
    effectiveLimit (some s) = Except.ok n := by
  simp [effectiveLimit, hs, hp, not_lt.2 h0]

/-! ## Claims -/

/-- C1: for every non-empty batch, the `avg_confidence` stored by ingest is
(sum of scores / number of objects) × 100, rounded (standard rounding) to two
decimal places; for scores `[0.5, 0.9, 1.0]` it is `80.00`. -/
theorem C1_avg_confidence :
    (∀ (src : Option String) (st : StoreState) (objects : List DetectedObject),
        objects ≠ [] →
        ∃ r : DetectionRow,
          ((handlePostDetections src (.arr objects) st).2).rows = st.rows ++ [r] ∧
          r.avg_confidence =
            ((round ((objects.map fun o => o.score).sum / (objects.length : ℚ) * 100 * 100) : ℤ) : ℚ) / 100) ∧
    (∃ r : DetectionRow,
        ((handlePostDetections (some "camera") (.arr demoBatch) initialState).2).rows = [r] ∧
        r.avg_confidence = 80) := by
  constructor
  · intro src st objects h
    rw [handlePost_arr _ _ _ h]
    refine ⟨_, rfl, ?_⟩
    show toFixed2 _ = _
    rw [toFixed2_eq_round, foldl_add_score, zero_add]
  · refine ⟨_, rfl, ?_⟩
    show toFixed2 _ = _
    rw [toFixed2_eq_round, round_eq]
    norm_num [demoBatch]

/-- Witness for C1 at the spec's example batch. -/
theorem C1_witness :
    ∃ r : DetectionRow,
      ((handlePostDetections (some "camera") (.arr demoBatch) initialState).2).rows =
        initialState.rows ++ [r] ∧
      r.avg_confidence =
        ((round ((demoBatch.map fun o => o.score).sum / (demoBatch.length : ℚ) * 100 * 100) : ℤ) : ℚ) / 100 :=
  C1_avg_confidence.1 (some "camera") initialState demoBatch (by decide)

/-- C2 counterexample: on classes `["person", "0"]` the stored summary string
is `"0 (1), person (1)"` — the array-index key `"0"` is enumerated first by
`Object.entries` — whereas first-appearance order would give
`"person (1), 0 (1)"`. -/
theorem C2_counterexample :
    ((handlePostDetections (some "camera") (.arr idxBatch) initialState).2).rows.map
        (fun r => r.detected_objects) = ["0 (1), person (1)"] ∧
    specDetectedObjects (idxBatch.map fun o => o.«class») = "person (1), 0 (1)" ∧
    ((handlePostDetections (some "camera") (.arr idxBatch) initialState).2).rows.map
        (fun r => r.detected_objects) ≠
      [specDetectedObjects (idxBatch.map fun o => o.«class»)] := by
  refine ⟨by decide, by decide, by decide⟩

/-- C2 (amended): for every non-empty batch none of whose class labels is a
canonical array-index string, the stored `detected_objects` lists one
`"<class> (<count>)"` pair per distinct class, joined with `", "`, in
first-appearance order; for classes `["person","car","person"]` it is
`"person (2), car (1)"`.  (Array-index labels such as `"0"` are instead
enumerated first, in ascending numeric order.) -/
theorem C2_detected_objects :
    (∀ (src : Option String) (st : StoreState) (objects : List DetectedObject),
        objects ≠ [] →
        (∀ o ∈ objects, isArrayIndexKey o.«class» = false) →
        ∃ r : DetectionRow,
          ((handlePostDetections src (.arr objects) st).2).rows = st.rows ++ [r] ∧
          r.detected_objects = specDetectedObjects (objects.map fun o => o.«class»)) ∧
    (∃ r : DetectionRow,
        ((handlePostDetections (some "camera") (.arr demoBatch) initialState).2).rows = [r] ∧
        r.detected_objects = "person (2), car (1)") := by
  constructor
  · intro src st objects h hidx
    rw [handlePost_arr _ _ _ h]
    refine ⟨_, rfl, ?_⟩
    show detectedObjectsString (objects.map fun o => o.«class») =
      specDetectedObjects (objects.map fun o => o.«class»)
    apply detectedObjectsString_eq_spec
    intro n hn
    obtain ⟨o, ho, rfl⟩ := List.mem_map.1 hn
    exact hidx o ho
  · refine ⟨_, rfl, ?_⟩
    show detectedObjectsString (demoBatch.map fun o => o.«class») = "person (2), car (1)"
    decide

/-- Witness for C2 at the spec's example batch (whose labels are not
array-index strings). -/
theorem C2_witness :
    ∃ r : DetectionRow,
      ((handlePostDetections (some "camera") (.arr demoBatch) initialState).2).rows =
        initialState.rows ++ [r] ∧
      r.detected_objects = specDetectedObjects (demoBatch.map fun o => o.«class») :=
  C2_detected_objects.1 (some "camera") initialState demoBatch (by decide) (by decide)

/-- C3: for every non-empty batch, the stored row has `total_objects` equal to
the batch length, `unique_objects` equal to the number of distinct class
values, and hence `unique_objects ≤ total_objects`. -/
theorem C3_counts :
    ∀ (src : Option String) (st : StoreState) (objects : List DetectedObject),
      objects ≠ [] →
      ∃ r : DetectionRow,
        ((handlePostDetections src (.arr objects) st).2).rows = st.rows ++ [r] ∧
        r.total_objects = objects.length ∧
        r.unique_objects = (objects.map fun o => o.«class»).dedup.length ∧
        r.unique_objects ≤ r.total_objects := by
  intro src st objects h
  rw [handlePost_arr _ _ _ h]
  refine ⟨_, rfl, rfl, ?_, ?_⟩
  · show (firstSeen (objects.map fun o => o.«class»)).length = _
    exact firstSeen_length_eq_dedup _
  · show (firstSeen (objects.map fun o => o.«class»)).length ≤ objects.length
    rw [firstSeen_length_eq_dedup]
    calc (objects.map fun o => o.«class»).dedup.length
        ≤ (objects.map fun o => o.«class»).length := (List.dedup_sublist _).length_le
      _ = objects.length := List.length_map _ _

/-- Witness for C3 at the spec's example batch. -/
theorem C3_witness :
    ∃ r : DetectionRow,
      ((handlePostDetections (some "camera") (.arr demoBatch) initialState).2).rows =
        initialState.rows ++ [r] ∧
      r.total_objects = demoBatch.length ∧
      r.unique_objects = (demoBatch.map fun o => o.«class»).dedup.length ∧
      r.unique_objects ≤ r.total_objects :=
  C3_counts (some "camera") initialState demoBatch (by decide)

/-- C4: an ingest whose `objects` field is missing or an empty array gets the
400 validation response and leaves the store unchanged. -/
theorem C4_empty_rejected :
    ∀ (src : Option String) (st : StoreState),
      handlePostDetections src JsVal.undefined st =
        (mkResp 400 (.errorMsg "No hay objetos para guardar"), st) ∧
      handlePostDetections src (.arr []) st =
        (mkResp 400 (.errorMsg "No hay objetos para guardar"), st) := by
  intro src st
  exact ⟨rfl, rfl⟩

/-- C5 counterexample: the two entry points do not create the same table
schema — the standalone server's `CREATE TABLE` has no `detected_objects`
column while the adapter's does — so the claimed full equivalence fails. -/
theorem C5_counterexample : ¬C5_claim := by
  intro h
  exact absurd h.2.2.2.2.2 (by decide)

/-- C5 (amended): the five per-request handlers of the standalone server and
of the function-per-request adapter implement the same logic — equal
responses and store effects on every request and store state — but their
initialization schemas differ: the server's `CREATE TABLE` omits the
`detected_objects VARCHAR(500)` column the adapter's creates (and both
`INSERT` statements write). -/
theorem C5_handlers_equal_schemas_differ :
    serverPostDetections = handlePostDetections ∧
    serverGetDetections = handleGetDetections ∧
    serverStats = handleStats ∧
    serverDeleteDetections = handleDeleteDetections ∧
    serverHealth = handleHealth ∧
    serverSchemaColumns ≠ netlifySchemaColumns ∧
    "detected_objects" ∉ serverSchemaColumns.map Prod.fst ∧
    ("detected_objects", "VARCHAR(500)") ∈ netlifySchemaColumns :=
  ⟨rfl, rfl, rfl, rfl, rfl, by decide, by decide, by decide⟩

/-- C6 counterexample: the supplied limit `"0"` is non-positive yet is neither
rejected nor clamped — it is passed through verbatim as the store's limit. -/
theorem C6_counterexample : ¬C6_claim := by
  intro h
  exact h.2 "0" 0 (by decide) (Or.inl le_rfl) rfl

/-- C6 (amended): the history operation uses limit 50 when the parameter is
absent or empty (falsy); every other supplied value is handed to the store
verbatim — non-negative values (including 0 and absurdly large ones) are used
as the `LIMIT`, and negative ones make the store itself error. -/
theorem C6_limit_passthrough :
    (∀ st : StoreState,
        handleGetDetections none st =
          (mkResp 200 (.getSuccess ((sortByCreatedAtDesc st.rows).take 50).length
            ((sortByCreatedAtDesc st.rows).take 50)), st)) ∧
    effectiveLimit none = Except.ok 50 ∧
    effectiveLimit (some "") = Except.ok 50 ∧
    (∀ (s : String) (n : ℤ), s ≠ "" → pgParseInt s = some n → 0 ≤ n →
        effectiveLimit (some s) = Except.ok n) ∧
    (∀ (s : String) (n : ℤ), s ≠ "" → pgParseInt s = some n → n < 0 →
        effectiveLimit (some s) = Except.error "LIMIT must not be negative") := by
  refine ⟨fun st => rfl, rfl, rfl,
    fun s n hs hp h0 => effectiveLimit_passthrough s n hs hp h0, ?_⟩
  intro s n hs hp hneg
  simp [effectiveLimit, hs, hp, hneg]

/-- Witness for C6: the absurdly large limit `"1000000000"` is passed through
unchanged. -/
theorem C6_witness : effectiveLimit (some "1000000000") = Except.ok 1000000000 :=
  C6_limit_passthrough.2.2.2.1 "1000000000" 1000000000 (by decide) (by decide) (by decide)

/-- C7: stats returns the row count, the sum and maximum of `total_objects`
and the mean of `avg_confidence`; on an empty store the aggregates are
zero/null without error; after ingesting batches of 3 and 5 objects,
`total_objects_detected = 8` and `max_objects_in_detection = 5`. -/
theorem C7_stats :
    (∀ st : StoreState,
        handleStats st = (mkResp 200 (.statsSuccess (aggregateStats st.rows)), st)) ∧
    aggregateStats [] = ⟨0, none, none, none⟩ ∧
    (∀ rows : List DetectionRow, rows ≠ [] →
        (aggregateStats rows).total_detections = rows.length ∧
        (aggregateStats rows).total_objects_detected =
          some ((rows.map fun r => r.total_objects).sum) ∧
        (aggregateStats rows).overall_avg_confidence =
          some ((rows.map fun r => r.avg_confidence).sum / (rows.length : ℚ)) ∧
        ∃ m, (aggregateStats rows).max_objects_in_detection = some m ∧
          m ∈ rows.map (fun r => r.total_objects) ∧
          ∀ x ∈ rows.map (fun r => r.total_objects), x ≤ m) ∧
    (aggregateStats statsDemoState.rows).total_objects_detected = some 8 ∧
    (aggregateStats statsDemoState.rows).max_objects_in_detection = some 5 := by
  refine ⟨fun st => rfl, rfl, ?_, by decide, by decide⟩
  intro rows h
  match rows, h with
  | r :: rest, _ =>
    have hne : (r :: rest).map (fun x => x.total_objects) ≠ [] := by simp
    exact ⟨rfl, rfl, rfl, _, rfl, (foldr_max_spec _ hne).1, (foldr_max_spec _ hne).2⟩

/-- Witness for C7 at the two-ingest scenario. -/
theorem C7_witness :
    (aggregateStats statsDemoState.rows).total_detections = statsDemoState.rows.length ∧
    (aggregateStats statsDemoState.rows).total_objects_detected =
      some ((statsDemoState.rows.map fun r => r.total_objects).sum) ∧
    (aggregateStats statsDemoState.rows).overall_avg_confidence =
      some ((statsDemoState.rows.map fun r => r.avg_confidence).sum /
        (statsDemoState.rows.length : ℚ)) ∧
    ∃ m, (aggregateStats statsDemoState.rows).max_objects_in_detection = some m ∧
      m ∈ statsDemoState.rows.map (fun r => r.total_objects) ∧
      ∀ x ∈ statsDemoState.rows.map (fun r => r.total_objects), x ≤ m :=
  C7_stats.2.2.1 statsDemoState.rows (by decide)

/-- C8: for every store state and positive well-formed limit, history answers
with at most that many rows, sorted by descending `created_at`; after three
inserts (at times 10, 20, 30), `limit=2` returns exactly the two most recent
rows, newest first. -/
theorem C8_history :
    (∀ (st : StoreState) (s : String) (n : ℤ), s ≠ "" → pgParseInt s = some n →
        0 ≤ n →
        ∃ data : List DetectionRow,
          handleGetDetections (some s) st =
            (mkResp 200 (.getSuccess data.length data), st) ∧
          data.length ≤ n.toNat ∧
          data.Sorted fun a b => b.created_at ≤ a.created_at) ∧
    histState.rows.length = 3 ∧
    (handleGetDetections (some "2") histState).1 =
      mkResp 200 (.getSuccess 2 (histState.rows.reverse.take 2)) := by
  refine ⟨?_, by decide, ?_⟩
  · intro st s n hs hp h0
    refine ⟨(sortByCreatedAtDesc st.rows).take n.toNat, ?_, ?_, ?_⟩
    · simp [handleGetDetections, effectiveLimit_passthrough s n hs hp h0]
    · rw [List.length_take]
      exact min_le_left _ _
    · exact List.Pairwise.sublist (List.take_sublist _ _)
        (sorted_sortByCreatedAtDesc st.rows)
  · rfl

/-- Witness for C8 at the three-insert scenario with limit `"2"`. -/
theorem C8_witness :
    ∃ data : List DetectionRow,
      handleGetDetections (some "2") histState =
        (mkResp 200 (.getSuccess data.length data), histState) ∧
      data.length ≤ (2 : ℤ).toNat ∧
      data.Sorted fun a b => b.created_at ≤ a.created_at :=
  C8_history.1 histState "2" 2 (by decide) (by decide) (by decide)

/-- C9: `OPTIONS` to any path gets a 200 with permissive CORS headers and an
empty body; any (method, path) matching none of the five operations gets the
404 response, with the store untouched in both cases. -/
theorem C9_routing :
    (∀ (ev : NetlifyEvent) (st : StoreState), ev.httpMethod = "OPTIONS" →
        handler ev st = (⟨200, corsHeaders, ResponseBody.empty⟩, st) ∧
        ("Access-Control-Allow-Origin", "*") ∈ corsHeaders) ∧
    (∀ (ev : NetlifyEvent) (st : StoreState),
        ev.httpMethod ≠ "OPTIONS" →
        ¬(ev.path = "/.netlify/functions/api/health" ∧ ev.httpMethod = "GET") →
        ¬(ev.path = "/.netlify/functions/api/detections" ∧ ev.httpMethod = "POST") →
        ¬(ev.path = "/.netlify/functions/api/detections" ∧ ev.httpMethod = "GET") →
        ¬(ev.path = "/.netlify/functions/api/stats" ∧ ev.httpMethod = "GET") →
        ¬(ev.path = "/.netlify/functions/api/detections" ∧ ev.httpMethod = "DELETE") →
        handler ev st = (mkResp 404 (.errorMsg "Ruta no encontrada"), st)) := by
  constructor
  · intro ev st h
    refine ⟨?_, by decide⟩
    unfold handler
    rw [if_pos h]
    rfl
  · intro ev st h0 h1 h2 h3 h4 h5
    unfold handler
    rw [if_neg h0, if_neg h1, if_neg h2, if_neg h3, if_neg h4, if_neg h5]

/-- Witness for C9: a concrete OPTIONS request and a concrete unmatched
route. -/
theorem C9_witness :
    (handler ⟨"OPTIONS", "/whatever", none, none, .undefined⟩ initialState =
        (⟨200, corsHeaders, ResponseBody.empty⟩, initialState) ∧
      ("Access-Control-Allow-Origin", "*") ∈ corsHeaders) ∧
    handler ⟨"PUT", "/nope", none, none, .undefined⟩ initialState =
      (mkResp 404 (.errorMsg "Ruta no encontrada"), initialState) :=
  ⟨C9_routing.1 ⟨"OPTIONS", "/whatever", none, none, .undefined⟩ initialState rfl,
   C9_routing.2 ⟨"PUT", "/nope", none, none, .undefined⟩ initialState
     (by decide) (by decide) (by decide) (by decide) (by decide) (by decide)⟩

/-- C10 counterexample: `objects = {"length": 0}` is truthy and not an array,
yet the validation check fires (`objects.length === 0` holds), so the client
gets the 400 validation error, not the claimed 500. -/
theorem C10_counterexample :
    jsTruthy (.obj [("length", .num 0)]) = true ∧
    isJsArray (.obj [("length", .num 0)]) = false ∧
    (handlePostDetections none (.obj [("length", .num 0)]) initialState).1.statusCode
      = 400 ∧
    ¬C10_claim := by
  refine ⟨rfl, rfl, by decide, ?_⟩
  intro h
  exact absurd (h none (.obj [("length", .num 0)]) initialState rfl rfl).1 (by decide)

/-- C10 (amended): an ingest whose `objects` field is truthy, not an array,
and whose `length` property is not the number 0, passes validation, makes the
aggregation throw, and yields the 500 storage-error response with the store
unchanged.  (A non-array with `length` equal to the number 0 — e.g. the JSON
object `{"length": 0}` — instead fails validation with a 400.) -/
theorem C10_truthy_nonarray_500 :
    ∀ (src : Option String) (v : JsVal) (st : StoreState),
      jsTruthy v = true → isJsArray v = false →
      strictEqNumZero (lengthProp v) = false →
      handlePostDetections src v st =
        (mkResp 500 (.errorDetails "Error guardando en base de datos"
          "objects.map is not a function"), st) := by
  intro src v st ht ha hl
  have hcond : (!jsTruthy v || strictEqNumZero (lengthProp v)) = false := by
    rw [ht, hl]
    rfl
  unfold handlePostDetections
  rw [hcond]
  cases v with
  | arr xs => simp [isJsArray] at ha
  | undefined => rfl
  | null => rfl
  | bool b => rfl
  | num q => rfl
  | str s => rfl
  | obj fields => rfl

/-- Witness for C10 at the plain JSON object `{}`. -/
theorem C10_witness :
    jsTruthy (.obj []) = true ∧ isJsArray (.obj []) = false ∧
    strictEqNumZero (lengthProp (.obj [])) = false ∧
    handlePostDetections none (.obj []) initialState =
      (mkResp 500 (.errorDetails "Error guardando en base de datos"
        "objects.map is not a function"), initialState) :=
  ⟨rfl, rfl, rfl, C10_truthy_nonarray_500 none (.obj []) initialState rfl rfl rfl⟩
